import Mathlib

/-!
Verification of the `network-monitor` program (`src/main.go`).

The Go program is a single-target reachability monitor: it probes a target
(ICMP `ping` command or HTTP GET), detects up/down transitions under a mutex,
sends a Telegram notification on each transition, and runs a long-polling
Telegram bot loop that answers `/status`, `/start` and `/ping` commands.

The shallow embedding below translates the relevant functions into pure Lean
functions:

* `Monitor.check` (main.go lines 85-123) becomes `check`, an explicit
  state-transition function `MonitorState → Bool → Nat → Option String →
  MonitorState × CheckResult`.  Timestamps (`time.Time`) are modelled as `Nat`
  with `0` playing the role of the Go zero `time.Time` (`IsZero`); the outcome
  of `sendTelegram` is passed in as a parameter (`none` = success,
  `some e` = error) since the send is an external effect whose result the
  code only logs.
* `Monitor.ping` / `Monitor.httpCheck` (lines 47-67) become `ping` /
  `httpCheck`, with the transport outcome (HTTP response or transport error,
  `exec` command error) passed in as an explicit parameter.
* The bot dispatch loop of `Monitor.runBot` (lines 141-177) becomes
  `processPoll` / `runPolls` (offset-cursor bookkeeping) and
  `dispatchText` / `handleMessage` (text command matching).
-/

namespace NetworkMonitor

/-- The mutable fields of `Monitor` (main.go lines 23-29) that `check`
reads and writes under `mu`.  `time.Time` values are modelled as `Nat`
seconds; the Go zero `time.Time` is modelled as `0`, so `lastChange.IsZero()`
becomes `lastChange == 0`. -/
structure MonitorState where
  isUp : Bool
  lastChange : Nat
  lastCheck : Nat
deriving DecidableEq, Repr

/-- A fresh `Monitor{}` as built in `main` (main.go line 232): Go zero
values `false`, zero time, zero time. -/
def initialState : MonitorState := { isUp := false, lastChange := 0, lastCheck := 0 }

/-- The four notification message templates built in `check`
(main.go lines 100-114), abstracting the `fmt.Sprintf` strings.
`backUp downtime` carries the computed `now.Sub(m.lastChange)` value that is
interpolated into "was down for %s". -/
inductive Message where
  | startedUp
  | startedDown
  | down
  | backUp (downtime : Nat)
deriving DecidableEq, Repr

/-- The observable outcome of one `check` call besides the state update:
whether the transition branch was taken (`occurred`), the notification
message built and dispatched in that branch (`none` when no transition), and
whether the "Failed to send Telegram message" log line was emitted
(main.go lines 117-119). -/
structure CheckResult where
  occurred : Bool
  message : Option Message
  sendFailureLogged : Bool
deriving DecidableEq, Repr

/-- `Monitor.check` (main.go lines 85-123) minus the probe itself: the probe
result `isUp` and the clock reading `now` are parameters, as is the result of
`sendTelegram` (`sendResult`; `none` = nil error).  The statement order of the
Go body is kept exactly: `lastCheck` is written first, then the transition
branch overwrites `isUp` and `lastChange` *before* the message is built, so
the `backUp` downtime reads the already-updated `lastChange`. -/
def check (s : MonitorState) (isUp : Bool) (now : Nat) (sendResult : Option String) :
    MonitorState × CheckResult :=
  let s1 : MonitorState := { s with lastCheck := now }
  let prevUp : Bool := s1.isUp
  let firstCheck : Bool := s1.lastChange == 0
  if isUp != prevUp || firstCheck then
    let s2 : MonitorState := { s1 with isUp := isUp, lastChange := now }
    let msg : Message :=
      if isUp then
        if firstCheck then .startedUp
        else .backUp (now - s2.lastChange)
      else
        if firstCheck then .startedDown
        else .down
    (s2, { occurred := true, message := some msg, sendFailureLogged := sendResult.isSome })
  else
    (s1, { occurred := false, message := none, sendFailureLogged := false })

/-- The state reached after a sequence of `check` calls, each input being the
probe result and the clock reading; the send outcome cannot influence the
state, so it is fixed to success here.  Returns the list of intermediate
states, one per call. -/
def runStates (s : MonitorState) : List (Bool × Nat) → List MonitorState
  | [] => []
  | (b, t) :: rest =>
      let s' := (check s b t none).1
      s' :: runStates s' rest

/-! ### Prober (`ping` / `httpCheck`, main.go lines 47-67) -/

/-- Transport-level failures of the HTTP client or of the `ping` command:
no response / nonzero exit at all. -/
inductive TransportError where
  | timeout
  | connectionRefused
  | dnsFailure
  | other
deriving DecidableEq, Repr

/-- The part of `http.Response` that `httpCheck` inspects.  Go's `StatusCode`
is an `int`, but `net/http` never yields a negative one (the status-line
parser rejects negatives), so `Nat` is faithful. -/
structure HttpResponse where
  statusCode : Nat
deriving DecidableEq, Repr

/-- `Monitor.httpCheck` (main.go lines 58-67) with the outcome of
`client.Get` as an explicit parameter: `err != nil` becomes `Except.error`,
a received response becomes `Except.ok`.  The Go body returns `false` on
error and `resp.StatusCode > 0` on a response. -/
def httpCheck (result : Except TransportError HttpResponse) : Bool :=
  match result with
  | .error _ => false
  | .ok resp => decide (0 < resp.statusCode)

/-- `Monitor.ping` (main.go lines 47-56): scheme dispatch on the target
string, then either `httpCheck` or the `ping` command, whose `cmd.Run()`
error is the explicit parameter `cmdError` (`err == nil` becomes
`cmdError.isNone`). -/
def ping (target : String) (httpResult : Except TransportError HttpResponse)
    (cmdError : Option TransportError) : Bool :=
  if target.startsWith "http://" || target.startsWith "https://" then
    httpCheck httpResult
  else
    cmdError.isNone

/-! ### Command loop (`runBot` / `getUpdates`, main.go lines 141-206) -/

/-- The part of `TelegramUpdate` (main.go lines 179-187) that the dispatch
loop reads: the `update_id` sequence token and, when the update carries a
message, its text (the chat ID is used only to address the reply, so it is
dropped here).  `message = none` models a nil `Message` pointer. -/
structure TUpdate where
  updateID : Int
  message : Option (List Char)
deriving DecidableEq

/-- The inner `for _, update := range updates` loop of `runBot`
(main.go lines 151-173): the offset is set to `update.UpdateID + 1` for
every update, nil-message updates are skipped, and every update with a
message is handed to the text dispatcher.  Returns the offset after the
loop together with the sequence tokens of the dispatched commands, in
dispatch order. -/
def processPoll : Int → List TUpdate → Int × List Int
  | off, [] => (off, [])
  | _, u :: rest =>
      let off' := u.updateID + 1
      match u.message with
      | none => processPoll off' rest
      | some _ =>
          let r := processPoll off' rest
          (r.1, u.updateID :: r.2)

/-- Several iterations of `runBot`'s outer `for` loop, one successful
`getUpdates` response per element: the offset is threaded from one poll to
the next, and all dispatched tokens are collected. -/
def runPolls : Int → List (List TUpdate) → Int × List Int
  | off, [] => (off, [])
  | off, r :: rs =>
      let p := processPoll off r
      let q := runPolls p.1 rs
      (q.1, p.2 ++ q.2)

/-- A single poll response honours the requested offset: every token is at
least the cursor value and tokens strictly increase along the response.
This is the Telegram `getUpdates` contract that `runBot` relies on; the
loop itself performs no client-side deduplication. -/
def respOK : Int → List TUpdate → Bool
  | _, [] => true
  | off, u :: rest => decide (off ≤ u.updateID) && respOK (u.updateID + 1) rest

/-- Every poll response in the sequence honours the offset the loop would
request at that point. -/
def wellFormed : Int → List (List TUpdate) → Bool
  | _, [] => true
  | off, r :: rs => respOK off r && wellFormed (processPoll off r).1 rs

/-! ### Command text dispatch (main.go lines 157-172) -/

/-- The literal `"/status"` compared against by `strings.HasPrefix`
(main.go line 162). -/
def statusCmd : List Char := ['/', 's', 't', 'a', 't', 'u', 's']

/-- The literal `"/start"` (main.go line 164). -/
def startCmd : List Char := ['/', 's', 't', 'a', 'r', 't']

/-- The literal `"/ping"` (main.go line 166). -/
def pingCmd : List Char := ['/', 'p', 'i', 'n', 'g']

/-- Which reply path `runBot` takes for one message: the `/status` reply
(`getStatus()`), the `/start` capability summary, or the `/ping` path
("Checking now..." acknowledgment followed by a detached check-and-report).
`none` models the final else: no reply at all. -/
inductive ReplyKind where
  | statusReport
  | startInfo
  | pingAck
deriving DecidableEq

/-- ASCII whitespace recognised by `strings.TrimSpace` (the Go function
trims all Unicode space; message texts are matched on these ASCII
characters). -/
def isSpaceCh (c : Char) : Bool := c == ' ' || c == '\t' || c == '\n' || c == '\r'

/-- `strings.TrimSpace` (main.go line 157): drop leading and trailing
whitespace. -/
def trimSpace (l : List Char) : List Char :=
  ((l.dropWhile isSpaceCh).reverse.dropWhile isSpaceCh).reverse

/-- The `if/else if` chain of `runBot` (main.go lines 162-172) on an
already-trimmed text, with `strings.HasPrefix` modelled by `<+:` on
character lists. -/
def dispatchText (t : List Char) : Option ReplyKind :=
  if statusCmd <+: t then some .statusReport
  else if startCmd <+: t then some .startInfo
  else if pingCmd <+: t then some .pingAck
  else none

/-- Processing of one inbound message text by `runBot`: trim, then match
the command chain (main.go lines 157-172). -/
def handleMessage (raw : List Char) : Option ReplyKind := dispatchText (trimSpace raw)

/-! ### Helper lemmas about `check` -/

/-- The transition branch of `check` is taken exactly when the probed value
differs from the recorded one or `lastChange` is still the zero time. -/
theorem check_occurred_iff (s : MonitorState) (b : Bool) (now : Nat) (sr : Option String) :
    (check s b now sr).2.occurred = true ↔ (b ≠ s.isUp ∨ s.lastChange = 0) := by
  simp only [check]
  split
  · next h =>
    simp only [Bool.or_eq_true, bne_iff_ne, beq_iff_eq] at h
    simpa using h
  · next h =>
    simp only [Bool.or_eq_true, bne_iff_ne, beq_iff_eq] at h
    push_neg at h
    simp [h.1, h.2]

/-- A message is built exactly when the transition branch is taken. -/
theorem check_message_isSome (s : MonitorState) (b : Bool) (now : Nat) (sr : Option String) :
    ((check s b now sr).2.message).isSome = (check s b now sr).2.occurred := by
  simp only [check]
  split <;> rfl

/-- Closed form of the state part of `check`: on a transition all three
fields are rewritten, otherwise only `lastCheck` is. -/
theorem check_fst_spec (s : MonitorState) (b : Bool) (t : Nat) (sr : Option String) :
    (check s b t sr).1 =
      if b ≠ s.isUp ∨ s.lastChange = 0 then ⟨b, t, t⟩ else ⟨s.isUp, s.lastChange, t⟩ := by
  simp only [check]
  split
  · next h =>
    simp only [Bool.or_eq_true, bne_iff_ne, beq_iff_eq] at h
    rw [if_pos h]
  · next h =>
    simp only [Bool.or_eq_true, bne_iff_ne, beq_iff_eq] at h
    rw [if_neg h]

/-- `check` always stores the clock reading into `lastCheck`. -/
theorem check_lastCheck (s : MonitorState) (b : Bool) (t : Nat) (sr : Option String) :
    (check s b t sr).1.lastCheck = t := by
  rw [check_fst_spec]; split <;> rfl

/-- `check` leaves `lastChange` at most the clock reading, provided the
incoming state already satisfied the invariant and the clock did not go
backwards. -/
theorem check_lastChange_le (s : MonitorState) (b : Bool) (t : Nat) (sr : Option String)
    (h1 : s.lastChange ≤ s.lastCheck) (h2 : s.lastCheck ≤ t) :
    (check s b t sr).1.lastChange ≤ t := by
  rw [check_fst_spec]
  split
  · exact le_refl t
  · exact le_trans h1 h2

/-- A second `check` with the same probed value right after a first one
never takes the transition branch (the first call recorded a nonzero
timestamp, so the unset-`lastChange` escape no longer applies). -/
theorem check_second_same_false (s : MonitorState) (b : Bool) (t₁ t₂ : Nat)
    (sr₁ sr₂ : Option String) (h : t₁ ≠ 0) :
    (check (check s b t₁ sr₁).1 b t₂ sr₂).2.occurred = false := by
  rw [check_fst_spec]
  by_cases hc : b ≠ s.isUp ∨ s.lastChange = 0
  · rw [if_pos hc, ← Bool.not_eq_true, check_occurred_iff]
    simp [h]
  · rw [if_neg hc, ← Bool.not_eq_true, check_occurred_iff]
    exact hc

/-- The `lastCheck` fields along a run are exactly the clock readings of the
corresponding calls. -/
theorem runStates_map_lastCheck (inputs : List (Bool × Nat)) :
    ∀ s : MonitorState, (runStates s inputs).map MonitorState.lastCheck = inputs.map Prod.snd := by
  induction inputs with
  | nil => intro s; rfl
  | cons p rest ih =>
      intro s
      obtain ⟨b, t⟩ := p
      simp only [runStates, List.map_cons, check_lastCheck, ih]

/-- Along any run whose clock readings never decrease (and never fall below
the starting `lastCheck`), every intermediate state satisfies
`lastChange ≤ lastCheck`. -/
theorem runStates_inv (inputs : List (Bool × Nat)) :
    ∀ s : MonitorState, s.lastChange ≤ s.lastCheck →
      List.Chain' (· ≤ ·) (s.lastCheck :: inputs.map Prod.snd) →
      ∀ x ∈ runStates s inputs, x.lastChange ≤ x.lastCheck := by
  induction inputs with
  | nil => intro s _ _ x hx; simp [runStates] at hx
  | cons p rest ih =>
      intro s hinv hchain x hx
      obtain ⟨b, t⟩ := p
      simp only [List.map_cons, List.chain'_cons] at hchain
      obtain ⟨hst, hchain'⟩ := hchain
      simp only [runStates, List.mem_cons] at hx
      have hkey : ((check s b t none).1).lastChange ≤ ((check s b t none).1).lastCheck := by
        rw [check_lastCheck]
        exact check_lastChange_le s b t none hinv hst
      rcases hx with rfl | hx
      · exact hkey
      · exact ih (check s b t none).1 hkey (by rwa [check_lastCheck]) x hx

/-! ### Helper lemmas about the command loop -/

/-- Under an offset-honouring poll response, the final offset is at least the
requested one, every dispatched token lies in `[off, finalOffset)`, and the
dispatched tokens strictly increase. -/
theorem processPoll_bounds (r : List TUpdate) :
    ∀ off : Int, respOK off r = true →
      off ≤ (processPoll off r).1 ∧
      (∀ t ∈ (processPoll off r).2, off ≤ t ∧ t < (processPoll off r).1) ∧
      (processPoll off r).2.Pairwise (· < ·) := by
  induction r with
  | nil =>
      intro off _
      exact ⟨le_refl off, by intro t ht; simp [processPoll] at ht, by simp [processPoll]⟩
  | cons u rest ih =>
      intro off hok
      simp only [respOK, Bool.and_eq_true, decide_eq_true_eq] at hok
      obtain ⟨hle, hrest⟩ := hok
      obtain ⟨ih1, ih2, ih3⟩ := ih (u.updateID + 1) hrest
      have hstep : off ≤ u.updateID + 1 := le_trans hle (by omega)
      match hm : u.message with
      | none =>
          simp only [processPoll, hm]
          exact ⟨le_trans hstep ih1,
            fun t ht => ⟨le_trans hstep (ih2 t ht).1, (ih2 t ht).2⟩, ih3⟩
      | some c =>
          simp only [processPoll, hm]
          refine ⟨le_trans hstep ih1, ?_, ?_⟩
          · intro t ht
            simp only [List.mem_cons] at ht
            rcases ht with rfl | ht
            · exact ⟨hle, lt_of_lt_of_le (by omega) ih1⟩
            · exact ⟨le_trans hstep (ih2 t ht).1, (ih2 t ht).2⟩
          · exact List.Pairwise.cons
              (fun t ht => lt_of_lt_of_le (by omega) (ih2 t ht).1) ih3

/-- Across a sequence of offset-honouring poll responses, all dispatched
tokens strictly increase (so none repeats). -/
theorem runPolls_bounds (rs : List (List TUpdate)) :
    ∀ off : Int, wellFormed off rs = true →
      off ≤ (runPolls off rs).1 ∧
      (∀ t ∈ (runPolls off rs).2, off ≤ t ∧ t < (runPolls off rs).1) ∧
      (runPolls off rs).2.Pairwise (· < ·) := by
  induction rs with
  | nil =>
      intro off _
      exact ⟨le_refl off, by intro t ht; simp [runPolls] at ht, by simp [runPolls]⟩
  | cons r rest ih =>
      intro off hwf
      simp only [wellFormed, Bool.and_eq_true] at hwf
      obtain ⟨hr, hrest⟩ := hwf
      obtain ⟨p1, p2, p3⟩ := processPoll_bounds r off hr
      obtain ⟨q1, q2, q3⟩ := ih (processPoll off r).1 hrest
      simp only [runPolls]
      refine ⟨le_trans p1 q1, ?_, ?_⟩
      · intro t ht
        simp only [List.mem_append] at ht
        rcases ht with ht | ht
        · exact ⟨(p2 t ht).1, lt_of_lt_of_le (p2 t ht).2 q1⟩
        · exact ⟨le_trans p1 (q2 t ht).1, (q2 t ht).2⟩
      · rw [List.pairwise_append]
        exact ⟨p3, q3, fun a ha b hb => lt_of_lt_of_le (p2 a ha).2 (q2 b hb).1⟩

/-- A text starting with `"/start"` cannot also start with `"/status"`
(they differ at the fifth character), so the first branch of the dispatch
chain does not capture `/start` commands. -/
theorem start_not_status (t : List Char) (h : startCmd <+: t) : ¬ statusCmd <+: t := by
  obtain ⟨r, rfl⟩ := h
  intro hc
  simp [statusCmd, startCmd, List.cons_prefix_cons] at hc

/-- A text starting with `"/ping"` cannot also start with `"/status"`. -/
theorem ping_not_status (t : List Char) (h : pingCmd <+: t) : ¬ statusCmd <+: t := by
  obtain ⟨r, rfl⟩ := h
  intro hc
  simp [statusCmd, pingCmd, List.cons_prefix_cons] at hc

/-- A text starting with `"/ping"` cannot also start with `"/start"`. -/
theorem ping_not_start (t : List Char) (h : pingCmd <+: t) : ¬ startCmd <+: t := by
  obtain ⟨r, rfl⟩ := h
  intro hc
  simp [startCmd, pingCmd, List.cons_prefix_cons] at hc

/-! ### Claims -/

/-- C1: in every `check` invocation, the transition branch fires — `occurred`
is true and a notification message is built and dispatched — if and only if
the probed boolean differs from the previously recorded `isUp` or
`lastChange` is still unset (the Go zero time); in particular the very first
check, from the freshly constructed `Monitor`, always produces a
notification. -/
theorem transition_event_iff :
    (∀ (s : MonitorState) (b : Bool) (now : Nat) (sr : Option String),
      ((check s b now sr).2.occurred = true ∧ ((check s b now sr).2.message).isSome = true) ↔
        (b ≠ s.isUp ∨ s.lastChange = 0)) ∧
    (∀ (b : Bool) (now : Nat) (sr : Option String),
      (check initialState b now sr).2.occurred = true ∧
        ((check initialState b now sr).2.message).isSome = true) := by
  have key : ∀ (s : MonitorState) (b : Bool) (now : Nat) (sr : Option String),
      ((check s b now sr).2.occurred = true ∧ ((check s b now sr).2.message).isSome = true) ↔
        (b ≠ s.isUp ∨ s.lastChange = 0) := by
    intro s b now sr
    constructor
    · intro h
      exact (check_occurred_iff s b now sr).mp h.1
    · intro h
      refine ⟨(check_occurred_iff s b now sr).mpr h, ?_⟩
      rw [check_message_isSome]
      exact (check_occurred_iff s b now sr).mpr h
  exact ⟨key, fun b now sr => (key initialState b now sr).mpr (Or.inr rfl)⟩

/-- C2 (code bug): on a down→up transition that is not the first observation,
the code overwrites `m.lastChange` with `now` (main.go line 98) *before*
computing `downtime := now.Sub(m.lastChange)` (line 105), so the "was down
for" duration in the message is always zero.  Here the target was recorded
down since time 100 and comes back at time 400: the message carries downtime
0, not the actual `400 - 100 = 300`. -/
theorem backUp_reports_zero_downtime :
    (check ⟨false, 100, 100⟩ true 400 none).2.message = some (Message.backUp 0) ∧
      Message.backUp 0 ≠ Message.backUp (400 - 100) := by
  decide

/-- C3: starting from the fresh `Monitor`, along any sequence of `check`
calls whose clock readings are non-decreasing, the recorded `lastCheck`
values are non-decreasing and, after every call, `lastChange ≤ lastCheck`. -/
theorem lastCheck_monotone_and_invariant (inputs : List (Bool × Nat))
    (h : List.Chain' (· ≤ ·) (inputs.map Prod.snd)) :
    List.Chain' (· ≤ ·) ((runStates initialState inputs).map MonitorState.lastCheck) ∧
      ∀ x ∈ runStates initialState inputs, x.lastChange ≤ x.lastCheck := by
  constructor
  · rw [runStates_map_lastCheck]
    exact h
  · refine runStates_inv inputs initialState (le_refl 0) ?_
    rw [List.chain'_cons']
    exact ⟨fun y _ => Nat.zero_le y, h⟩

/-- Witness for C3 at the concrete run up@3, up@5, down@5. -/
theorem lastCheck_monotone_and_invariant_witness :
    List.Chain' (· ≤ ·) (([(true, 3), (true, 5), (false, 5)] : List (Bool × Nat)).map Prod.snd) ∧
      (List.Chain' (· ≤ ·)
          ((runStates initialState [(true, 3), (true, 5), (false, 5)]).map
            MonitorState.lastCheck) ∧
        ∀ x ∈ runStates initialState [(true, 3), (true, 5), (false, 5)],
          x.lastChange ≤ x.lastCheck) :=
  ⟨by simp, lastCheck_monotone_and_invariant [(true, 3), (true, 5), (false, 5)] (by simp)⟩

/-- C4: the probe never surfaces an error: it is a total function into
`Bool`, and any transport-level failure — an erroring HTTP GET on an
`http(s)://` target, a failing `ping` command otherwise — yields `false`,
for every target string and every failure kind. -/
theorem probe_error_collapses_to_false (target : String) (e ce : TransportError) :
    ping target (Except.error e) (some ce) = false ∧
      httpCheck (Except.error e) = false := by
  constructor
  · simp only [ping]
    split <;> rfl
  · rfl

/-- C5 (counterexample): the claim says `httpCheck` returns `false` only
when no response at all is received, but the code tests
`resp.StatusCode > 0` (main.go line 66), so a received response whose
status code is 0 (which Go's `net/http` accepts from a status line such as
`HTTP/1.1 000`) yields `false`. -/
theorem httpCheck_zero_status_response_false :
    httpCheck (Except.ok ⟨0⟩) = false := rfl

/-- C5 (amended): `httpCheck` returns `true` for every received response
with a positive status code — hence for every standard HTTP status,
including client-error codes such as 403 — and `false` on every
transport failure; the only received responses it rejects are those
reporting status code 0. -/
theorem httpCheck_positive_status_true :
    (∀ resp : HttpResponse, 0 < resp.statusCode → httpCheck (Except.ok resp) = true) ∧
      (∀ e : TransportError, httpCheck (Except.error e) = false) := by
  constructor
  · intro resp h
    simp only [httpCheck, decide_eq_true_eq]
    exact h
  · intro e
    rfl

/-- Witness for C5 (amended) at a 403 response. -/
theorem httpCheck_positive_status_true_witness :
    0 < (403 : Nat) ∧ httpCheck (Except.ok ⟨403⟩) = true :=
  ⟨by decide, httpCheck_positive_status_true.1 ⟨403⟩ (by decide)⟩

/-- C6 (counterexample): two immediate record steps with the same `isUp`
value need not produce any `occurred=true` event, contradicting "exactly one
`occurred=true` (on the first call)": after an initial up observation at
time 5, two further up checks at times 6 and 7 both report
`occurred=false`. -/
theorem recordCheck_twice_steady_no_event :
    (check (check initialState true 5 none).1 true 6 none).2.occurred = false ∧
      (check (check (check initialState true 5 none).1 true 6 none).1 true 7
          none).2.occurred = false := by
  decide

/-- C6 (amended): for two record steps in immediate succession with the same
`isUp` value (the first recording a nonzero timestamp), the second always
reports `occurred=false`, and the first reports `occurred=true` exactly when
that value differs from the previously recorded one or it is the first
observation; in particular, from the fresh `Monitor` the pair produces
exactly one `occurred=true` (the first) and one `occurred=false` (the
second). -/
theorem recordCheck_same_value_twice (s : MonitorState) (b : Bool) (t₁ t₂ : Nat)
    (sr₁ sr₂ : Option String) (h : t₁ ≠ 0) :
    (check (check s b t₁ sr₁).1 b t₂ sr₂).2.occurred = false ∧
      ((check s b t₁ sr₁).2.occurred = true ↔ (b ≠ s.isUp ∨ s.lastChange = 0)) :=
  ⟨check_second_same_false s b t₁ t₂ sr₁ sr₂ h, check_occurred_iff s b t₁ sr₁⟩

/-- Witness for C6 (amended): from the fresh `Monitor`, up-checks at times 1
and 2. -/
theorem recordCheck_same_value_twice_witness :
    (1 : Nat) ≠ 0 ∧
      ((check (check initialState true 1 none).1 true 2 none).2.occurred = false ∧
        ((check initialState true 1 none).2.occurred = true ↔
          (true ≠ initialState.isUp ∨ initialState.lastChange = 0))) :=
  ⟨by decide, recordCheck_same_value_twice initialState true 1 2 none none (by decide)⟩

/-- C7 (counterexample): `runBot` performs no client-side deduplication, so
"no command is dispatched twice even under duplicate poll responses" fails:
if two successive poll responses both deliver the command with token 5, the
loop dispatches it twice. -/
theorem duplicate_polls_redispatch :
    (runPolls 0 [[⟨5, some ['/', 's', 't', 'a', 't', 'u', 's']⟩],
        [⟨5, some ['/', 's', 't', 'a', 't', 'u', 's']⟩]]).2 = [5, 5] ∧
      ¬ (runPolls 0 [[⟨5, some ['/', 's', 't', 'a', 't', 'u', 's']⟩],
          [⟨5, some ['/', 's', 't', 'a', 't', 'u', 's']⟩]]).2.Nodup := by
  decide

/-- C7 (amended): after a poll delivering commands with tokens `[5, 6, 7]`,
the next poll requests offset 8, strictly greater than 7; and no command is
dispatched twice provided every poll response honours the requested offset
(only tokens at least the cursor, in strictly increasing order) — the
deduplication rests on that `getUpdates` contract, not on any client-side
filtering, so duplicate responses are re-dispatched. -/
theorem offset_advances_and_no_redispatch :
    (∀ m₁ m₂ m₃ : List Char,
      (processPoll 0 [⟨5, some m₁⟩, ⟨6, some m₂⟩, ⟨7, some m₃⟩]).1 = 8 ∧
        7 < (processPoll 0 [⟨5, some m₁⟩, ⟨6, some m₂⟩, ⟨7, some m₃⟩]).1) ∧
    (∀ (off : Int) (rs : List (List TUpdate)),
      wellFormed off rs = true → (runPolls off rs).2.Nodup) := by
  constructor
  · intro m₁ m₂ m₃
    have h8 : (processPoll 0 [⟨5, some m₁⟩, ⟨6, some m₂⟩, ⟨7, some m₃⟩]).1 = 8 := rfl
    exact ⟨h8, h8 ▸ (by norm_num : (7 : Int) < 8)⟩
  · intro off rs h
    exact ((runPolls_bounds rs off h).2.2).imp ne_of_lt

/-- Witness for C7 (amended) on two offset-honouring responses. -/
theorem offset_advances_and_no_redispatch_witness :
    wellFormed 0 [[⟨5, some ['/', 's']⟩, ⟨6, none⟩], [⟨9, some ['/', 'p']⟩]] = true ∧
      (runPolls 0 [[⟨5, some ['/', 's']⟩, ⟨6, none⟩], [⟨9, some ['/', 'p']⟩]]).2.Nodup :=
  ⟨by decide,
    offset_advances_and_no_redispatch.2 0
      [[⟨5, some ['/', 's']⟩, ⟨6, none⟩], [⟨9, some ['/', 'p']⟩]] (by decide)⟩

/-- C8: the state committed by `check` — and whether a transition event with
its message was produced — is the same whatever the outcome of the
`sendTelegram` call; a send error only flips the "Failed to send" log flag,
which is set exactly when a transition occurred and the send failed. -/
theorem recording_independent_of_send_outcome (s : MonitorState) (b : Bool) (now : Nat)
    (sr sr' : Option String) :
    (check s b now sr).1 = (check s b now sr').1 ∧
      (check s b now sr).2.occurred = (check s b now sr').2.occurred ∧
      (check s b now sr).2.message = (check s b now sr').2.message ∧
      (check s b now sr).2.sendFailureLogged =
        ((check s b now sr).2.occurred && sr.isSome) := by
  simp only [check]
  split <;> exact ⟨rfl, rfl, rfl, rfl⟩

/-- C9: a `check` in which no transition occurs — the probed value equals
the recorded `isUp` and `lastChange` is already set — leaves `isUp` and
`lastChange` unchanged and updates only `lastCheck`. -/
theorem steady_check_frame (s : MonitorState) (b : Bool) (now : Nat) (sr : Option String)
    (hb : b = s.isUp) (hc : s.lastChange ≠ 0) :
    (check s b now sr).1.isUp = s.isUp ∧ (check s b now sr).1.lastChange = s.lastChange ∧
      (check s b now sr).1.lastCheck = now := by
  simp only [check]
  split
  · next h =>
    simp only [Bool.or_eq_true, bne_iff_ne, beq_iff_eq] at h
    rcases h with h | h
    · exact absurd hb h
    · exact absurd h hc
  · exact ⟨rfl, rfl, rfl⟩

/-- Witness for C9: a steady up-check at time 7 on a state recorded up since
time 2. -/
theorem steady_check_frame_witness :
    (true = (⟨true, 2, 2⟩ : MonitorState).isUp ∧ (⟨true, 2, 2⟩ : MonitorState).lastChange ≠ 0) ∧
      ((check ⟨true, 2, 2⟩ true 7 none).1.isUp = (⟨true, 2, 2⟩ : MonitorState).isUp ∧
        (check ⟨true, 2, 2⟩ true 7 none).1.lastChange =
          (⟨true, 2, 2⟩ : MonitorState).lastChange ∧
        (check ⟨true, 2, 2⟩ true 7 none).1.lastCheck = 7) :=
  ⟨⟨by decide, by decide⟩, steady_check_frame ⟨true, 2, 2⟩ true 7 none (by decide) (by decide)⟩

/-- C10: `runBot` matches commands by text prefix, not exact equality: any
message whose trimmed text starts with `"/status"` (e.g. `"/statusfoo"`)
gets the status report, any `"/start"`-prefixed text the capability summary,
any `"/ping"`-prefixed text the check-now path, and a text matching none of
the three gets no reply. -/
theorem command_text_matching (raw : List Char) :
    ((statusCmd <+: trimSpace raw) → handleMessage raw = some .statusReport) ∧
    ((startCmd <+: trimSpace raw) → handleMessage raw = some .startInfo) ∧
    ((pingCmd <+: trimSpace raw) → handleMessage raw = some .pingAck) ∧
    (¬ (statusCmd <+: trimSpace raw) → ¬ (startCmd <+: trimSpace raw) →
      ¬ (pingCmd <+: trimSpace raw) → handleMessage raw = none) := by
  unfold handleMessage dispatchText
  refine ⟨fun h => by rw [if_pos h], fun h => ?_, fun h => ?_, fun h1 h2 h3 => ?_⟩
  · rw [if_neg (start_not_status _ h), if_pos h]
  · rw [if_neg (ping_not_status _ h), if_neg (ping_not_start _ h), if_pos h]
  · rw [if_neg h1, if_neg h2, if_neg h3]

/-- Witness for C10 on the message `" /statusfoo"`. -/
theorem command_text_matching_witness :
    (statusCmd <+: trimSpace [' ', '/', 's', 't', 'a', 't', 'u', 's', 'f', 'o', 'o']) ∧
      handleMessage [' ', '/', 's', 't', 'a', 't', 'u', 's', 'f', 'o', 'o'] =
        some .statusReport :=
  ⟨by decide,
    (command_text_matching [' ', '/', 's', 't', 'a', 't', 'u', 's', 'f', 'o', 'o']).1
      (by decide)⟩

end NetworkMonitor
